import Mathlib

/-!
Verification of the rymscraper/rymparser download-reconciliation core.

This file gives a shallow embedding, in Lean 4, of the parts of the
repository that the verified claims are about:

* `src/rymparser/slskd_client.py` — `_COMPLETED_STATES` and
  `_completed_directories` (classification of fully-downloaded remote
  directories);
* `src/rymparser/organizer.py` — `_normalize_path`, `_source_dir_name`,
  `_album_target_dir`, `_build_dir_to_album_map`, `_organize_album` and
  `wait_and_organize` (the polling/retry/organize loop);
* `src/rymparser/models.py` — `Album.__str__` and `Album.from_line`;
* `src/rymparser/search.py` and `src/rymscraper/search.py` —
  `rank_results` (the two copies are textually identical).

Python strings are Lean `String`s (in this toolchain a `String` is a
structure holding a `List Char`, so everything evaluates).  Python
`str.replace("\\", "/")` with a one-character pattern is embedded as a
character map.  Python sets are embedded as duplicate-free lists in first
insertion order, and Python dicts as association lists in insertion
order (updating an existing key keeps its position, as CPython does).
The filesystem is a list of existing node paths, a path being a list of
segments; `pathlib` joining collapses empty and `"."` segments and lets
an absolute right operand reset the path, which is mirrored here.
-/

/-- Code-point ranges of the 29 characters Python's `\s` matches on
`str` patterns, which is also exactly the set `str.strip()` removes
(CPython 3.11, Unicode 14). -/
def pyWhitespaceRanges : List (Nat × Nat) :=
  [(0x9, 0xd), (0x1c, 0x20), (0x85, 0x85), (0xa0, 0xa0), (0x1680, 0x1680),
   (0x2000, 0x200a), (0x2028, 0x2029), (0x202f, 0x202f), (0x205f, 0x205f),
   (0x3000, 0x3000)]

/-- Python whitespace: the character class `\s` of `re` on `str`
patterns, identical to the set stripped by `str.strip()`. -/
def pyIsSpace (c : Char) : Bool :=
  pyWhitespaceRanges.any (fun r => decide (r.1 ≤ c.toNat ∧ c.toNat ≤ r.2))

/-- Code-point ranges of the 660 Unicode decimal digits (category Nd)
matched by Python's `\d` on `str` patterns (CPython 3.11, Unicode 14). -/
def pyDigitRanges : List (Nat × Nat) :=
  [(0x30, 0x39), (0x660, 0x669), (0x6F0, 0x6F9), (0x7C0, 0x7C9),
   (0x966, 0x96F), (0x9E6, 0x9EF), (0xA66, 0xA6F), (0xAE6, 0xAEF),
   (0xB66, 0xB6F), (0xBE6, 0xBEF), (0xC66, 0xC6F), (0xCE6, 0xCEF),
   (0xD66, 0xD6F), (0xDE6, 0xDEF), (0xE50, 0xE59), (0xED0, 0xED9),
   (0xF20, 0xF29), (0x1040, 0x1049), (0x1090, 0x1099), (0x17E0, 0x17E9),
   (0x1810, 0x1819), (0x1946, 0x194F), (0x19D0, 0x19D9), (0x1A80, 0x1A89),
   (0x1A90, 0x1A99), (0x1B50, 0x1B59), (0x1BB0, 0x1BB9), (0x1C40, 0x1C49),
   (0x1C50, 0x1C59), (0xA620, 0xA629), (0xA8D0, 0xA8D9), (0xA900, 0xA909),
   (0xA9D0, 0xA9D9), (0xA9F0, 0xA9F9), (0xAA50, 0xAA59), (0xABF0, 0xABF9),
   (0xFF10, 0xFF19), (0x104A0, 0x104A9), (0x10D30, 0x10D39),
   (0x11066, 0x1106F), (0x110F0, 0x110F9), (0x11136, 0x1113F),
   (0x111D0, 0x111D9), (0x112F0, 0x112F9), (0x11450, 0x11459),
   (0x114D0, 0x114D9), (0x11650, 0x11659), (0x116C0, 0x116C9),
   (0x11730, 0x11739), (0x118E0, 0x118E9), (0x11950, 0x11959),
   (0x11C50, 0x11C59), (0x11D50, 0x11D59), (0x11DA0, 0x11DA9),
   (0x16A60, 0x16A69), (0x16AC0, 0x16AC9), (0x16B50, 0x16B59),
   (0x1D7CE, 0x1D7FF), (0x1E140, 0x1E149), (0x1E2F0, 0x1E2F9),
   (0x1E950, 0x1E959), (0x1FBF0, 0x1FBF9)]

/-- Python digit: the character class `\d` of `re` on `str` patterns,
the Unicode decimal digits, not only ASCII `0-9`. -/
def pyIsDigit (c : Char) : Bool :=
  pyDigitRanges.any (fun r => decide (r.1 ≤ c.toNat ∧ c.toNat ≤ r.2))

/-- Python `str.strip()` on the underlying character list. -/
def pyStrip (cs : List Char) : List Char :=
  ((cs.dropWhile pyIsSpace).reverse.dropWhile pyIsSpace).reverse

/-! ## Transfer snapshots (slskd API data reaching `_completed_directories`) -/

/-- One file entry of a transfer snapshot; the classifier reads only its
`state` string (`f.get("state", "")`). -/
structure TransferFile where
  state : String
deriving DecidableEq, Repr

/-- One directory entry of a transfer snapshot: `{"directory": ..., "files": [...]}`. -/
structure TransferDir where
  directory : String
  files : List TransferFile
deriving DecidableEq, Repr

/-- One per-user transfer entry: `{"username": ..., "directories": [...]}`. -/
structure Transfer where
  username : String
  directories : List TransferDir
deriving DecidableEq, Repr

/-- Constant `_COMPLETED_STATES` from `slskd_client.py` lines 186-193, exactly the
four states frozen there (`"Completed, Rejected"` is absent). -/
def _COMPLETED_STATES : List String :=
  ["Completed, Succeeded", "Completed, Cancelled",
   "Completed, TimedOut", "Completed, Errored"]

/-- The inline normalization `raw_dir.replace("\\", "/")` performed by
`_completed_directories` (`slskd_client.py` line 226). -/
def slskdNormalizeDir (s : String) : String :=
  ⟨s.data.map (fun c => if c = '\\' then '/' else c)⟩

/-- Insertion into a Python set embedded as a duplicate-free list in first
insertion order. -/
def insertIfAbsent (l : List String) (s : String) : List String :=
  if s ∈ l then l else l ++ [s]

/-- Function `_completed_directories` from `slskd_client.py` lines 196-228: the
single set of normalized directory paths whose (non-empty) file list is
entirely in `_COMPLETED_STATES`, over transfers of watched usernames. -/
def _completed_directories (transfers : List Transfer) (usernames : List String) :
    List String :=
  transfers.foldl
    (fun acc t =>
      if t.username ∈ usernames then
        t.directories.foldl
          (fun acc2 d =>
            if d.files = [] then acc2
            else if d.files.all (fun f => f.state ∈ _COMPLETED_STATES) then
              insertIfAbsent acc2 (slskdNormalizeDir d.directory)
            else acc2)
          acc
      else acc)
    []

/-- Python tuple destructuring `newly_done, newly_failed = e` of an
iterable `e`: succeeds exactly when `e` yields two elements, otherwise
raises `ValueError` (modelled as `Except.error ()`). -/
def unpack2 (l : List String) : Except Unit (String × String) :=
  match l with
  | [a, b] => .ok (a, b)
  | _ => .error ()

/-! ## Albums (`models.py`) -/

/-- Structure `Album` from `models.py` (the optional `release_type` field plays no
role in `__str__`/`from_line` and is omitted). -/
structure Album where
  artist : String
  title : String
  year : String
deriving DecidableEq, Repr

/-- Formatting `Album.__str__`: `"artist - title (year)"`, the year segment omitted
when `year` is empty (`models.py` lines 35-39). -/
def Album.str (a : Album) : String :=
  if a.year ≠ "" then a.artist ++ " - " ++ a.title ++ " (" ++ a.year ++ ")"
  else a.artist ++ " - " ++ a.title

/-- Matching of the tail pattern `(?:\s*\((\d{4})\))?\s*$` when the
optional group is taken: a greedy `\s*`, a literal `(`, exactly four
digits, `)`, then only whitespace to the end.  Returns the year digits. -/
def matchYearEnd (cs : List Char) : Option (List Char) :=
  match cs.dropWhile pyIsSpace with
  | '(' :: d1 :: d2 :: d3 :: d4 :: ')' :: rest =>
      if [d1, d2, d3, d4].all pyIsDigit && rest.all pyIsSpace then
        some [d1, d2, d3, d4]
      else none
  | _ => none

/-- Backtracking for `(.+?)(?:\s*\((\d{4})\))?\s*$`: the non-greedy title
group grows one character at a time; at each length the optional year
group is preferred, then the bare end-of-string.  `.` does not match a
newline (no `re.DOTALL`), so the alternative fails outright once the
group would have to absorb `'\n'`.  Returns the raw title group and the
year digits (empty when the group did not participate). -/
def tailGo (acc : List Char) : List Char → Option (List Char × List Char)
  | [] => none
  | c :: rest =>
    if c = '\n' then none
    else
      match matchYearEnd rest with
      | some y => some (acc ++ [c], y)
      | none =>
        if rest.all pyIsSpace then some (acc ++ [c], [])
        else tailGo (acc ++ [c]) rest

/-- Greedy `\s*` after the separator `-`, giving characters back to the
title group on failure (rightmost whitespace first). -/
def wsTry : List Char → List Char → Option (List Char × List Char)
  | [], t => tailGo [] t
  | c :: ws', t =>
    match tailGo [] t with
    | some r => some r
    | none => wsTry ws' (c :: t)

/-- After a candidate artist group: `\s*-\s*` followed by the tail
pattern.  The `\s*` before `-` is deterministic (whitespace never matches
the required `-`); the one after `-` backtracks via `wsTry`. -/
def sepThenTail (rs : List Char) : Option (List Char × List Char) :=
  match rs.dropWhile pyIsSpace with
  | [] => none
  | c :: r2 =>
    if c = '-' then wsTry (r2.takeWhile pyIsSpace).reverse (r2.dropWhile pyIsSpace)
    else none

/-- Leftmost backtracking for the full pattern
`^(.+?)\s*-\s*(.+?)(?:\s*\((\d{4})\))?\s*$`: the non-greedy artist group
grows one character at a time until the rest of the pattern matches.
`.` does not match a newline, so the anchored match fails outright once
the group would have to absorb `'\n'`.  Returns raw artist group, raw
title group and year digits. -/
def outerGo (acc : List Char) : List Char → Option (List Char × List Char × List Char)
  | [] => none
  | c :: rest =>
    if c = '\n' then none
    else
      match sepThenTail rest with
      | some (t, y) => some (acc ++ [c], t, y)
      | none => outerGo (acc ++ [c]) rest

/-- Parsing `Album.from_line` (`models.py` lines 41-64): match the line against
`^(.+?)\s*-\s*(.+?)(?:\s*\((\d{4})\))?\s*$`, strip groups 1 and 2, and
use group 3 (or `""`) as the year; `None` models the `ValueError`. -/
def Album.from_line (line : String) : Option Album :=
  match outerGo [] line.data with
  | none => none
  | some (a, t, y) => some ⟨⟨pyStrip a⟩, ⟨pyStrip t⟩, ⟨y⟩⟩

/-! ## Organizer paths and filesystem (`organizer.py`) -/

/-- Split on `/` (structural recursion over the character list). -/
def splitSlashGo (acc : List Char) : List Char → List (List Char)
  | [] => [acc.reverse]
  | c :: rest =>
    if c = '/' then acc.reverse :: splitSlashGo [] rest
    else splitSlashGo (c :: acc) rest

/-- The `pathlib` segments of a string: split on `/`, dropping empty
segments and `"."` (pathlib collapses spurious slashes and single dots;
`".."` is kept). -/
def pathSegs (s : String) : List String :=
  ((splitSlashGo [] s.data).map (fun l => (⟨l⟩ : String))).filter
    (fun t => !(t == "") && !(t == "."))

/-- The `pathlib` `/` join: an absolute right operand resets the path,
otherwise its segments are appended. -/
def pathJoin (base : List String) (s : String) : List String :=
  if s.data.head? = some '/' then pathSegs s else base ++ pathSegs s

/-- Function `_normalize_path` from `organizer.py` lines 61-70:
`directory.replace("\\", "/")`. -/
def _normalize_path (s : String) : String :=
  ⟨s.data.map (fun c => if c = '\\' then '/' else c)⟩

/-- Function `_source_dir_name` from `organizer.py` lines 43-58: normalize
separators and take `PurePosixPath(...).name`, the last collapsed
segment (or `""`). -/
def _source_dir_name (directory : String) : String :=
  (pathSegs (_normalize_path directory)).getLastD ""

/-- Function `_album_target_dir` from `organizer.py` lines 24-40:
`downloads_dir / artist / folder` with `folder = "title (year)"` when the
year is non-empty, else `title`. -/
def _album_target_dir (a : Album) (downloads : List String) : List String :=
  let folder := if a.year ≠ "" then a.title ++ " (" ++ a.year ++ ")" else a.title
  pathJoin (pathJoin downloads a.artist) folder

/-- The source directory `downloads_dir / _source_dir_name(remote_dir)`
computed at `organizer.py` lines 122-123. -/
def sourcePath (remote_dir : String) (downloads : List String) : List String :=
  pathJoin downloads (_source_dir_name remote_dir)

/-- A filesystem state: the list of existing node paths. -/
abbrev Fs := List (List String)

/-- The non-empty proper-or-full prefixes of a path. -/
def pathPrefixes (p : List String) : List (List String) :=
  (List.range p.length).map (fun k => p.take (k + 1))

/-- Operation `target.parent.mkdir(parents=True, exist_ok=True)`: add every missing
ancestor (and the directory itself) to the filesystem. -/
def mkdirParents (fs : Fs) (p : List String) : Fs :=
  fs ++ (pathPrefixes p).filter (fun q => decide (q ∉ fs))

/-- Operation `shutil.move(source, target)` when `target` does not exist: every
node under `source` is re-rooted at `target`. -/
def moveTree (fs : Fs) (src tgt : List String) : Fs :=
  fs.map (fun p => if src.isPrefixOf p then tgt ++ p.drop src.length else p)

/-- Function `_organize_album` from `organizer.py` lines 107-173, as a function of
the filesystem: fail when the source is missing, the album label does not
parse, or the target exists; succeed as a no-op when source and target
coincide; otherwise create the target's parents and move the tree.
`shutil.move` raises `OSError` when the destination lies inside the
source; the `except OSError` branch then returns `False` with the
`mkdir` side effect already applied. -/
def _organize_album (fs : Fs) (album_str remote_dir : String)
    (downloads : List String) : Bool × Fs :=
  let source := sourcePath remote_dir downloads
  if ¬ source ∈ fs then (false, fs)
  else
    match Album.from_line album_str with
    | none => (false, fs)
    | some album =>
      let target := _album_target_dir album downloads
      if source = target then (true, fs)
      else if target ∈ fs then (false, fs)
      else
        let fs1 := mkdirParents fs target.dropLast
        if source.isPrefixOf target then (false, fs1)
        else (true, moveTree fs1 source target)

/-! ## Persisted search outcomes and the polling loop (`organizer.py`) -/

/-- One alternative of a new-format `SearchOutcome`: the fields
`wait_and_organize` reads (`username`, `directory`, `files`); the `files`
payload is opaque to the loop and kept as a list of filenames. -/
structure AltEntry where
  username : String
  directory : String
  files : List String
deriving DecidableEq, Repr

/-- A non-null persisted result value: either the legacy flat shape or
the new `{"selected": ..., "alternatives": [...]}` shape. -/
inductive ResultData where
  | legacy (username : String) (directory : String) (files : List String)
  | withAlternatives (selected : Nat) (alternatives : List AltEntry)
deriving DecidableEq, Repr

/-- Lookup `data.get("selected", 0)`: a legacy dict has no `selected` key. -/
def ResultData.selectedIdx : ResultData → Nat
  | .legacy .. => 0
  | .withAlternatives s _ => s

/-- Lookup `data.get("alternatives", [])`: a legacy dict has no `alternatives` key. -/
def ResultData.alts : ResultData → List AltEntry
  | .legacy .. => []
  | .withAlternatives _ a => a

/-- The persisted results dict `album_str -> data`, in insertion order;
`none` is a JSON `null` (no candidate found). -/
abbrev Results := List (String × Option ResultData)

/-- Update of a Python dict embedded as an association list: an existing
key keeps its position, a new key is appended. -/
def assocSet {α : Type} : List (String × α) → String → α → List (String × α)
  | [], k, v => [(k, v)]
  | (k', v') :: rest, k, v =>
    if k' = k then (k, v) :: rest else (k', v') :: assocSet rest k v

/-- Python dict lookup `m.get(k)`. -/
def assocGet? {α : Type} (m : List (String × α)) (k : String) : Option α :=
  (m.find? (fun p => p.1 == k)).map (fun p => p.2)

/-- Function `_build_dir_to_album_map` from `organizer.py` lines 73-104:
`normalized_path -> (album_str, remote_dir)` over non-null results, the
new format using `alternatives[selected]` when the index is in range and
both formats skipping an empty remote directory. -/
def _build_dir_to_album_map (results : Results) : List (String × String × String) :=
  results.foldl
    (fun m kv =>
      match kv.2 with
      | none => m
      | some (.withAlternatives sel alts) =>
        match alts.get? sel with
        | none => m
        | some alt =>
          if alt.directory = "" then m
          else assocSet m (_normalize_path alt.directory) (kv.1, alt.directory)
      | some (.legacy _ dir _) =>
        if dir = "" then m
        else assocSet m (_normalize_path dir) (kv.1, dir))
    []

/-- The mutable state of the `wait_and_organize` polling loop. -/
structure LoopState where
  dirMap : List (String × String × String)
  totalExpected : Nat
  organized : List String
  movedCount : Nat
  attemptIndex : List (String × Nat)
  usernames : List String
  fs : Fs
  enqueued : List (String × List String)
deriving Repr

/-- The observable outcome of a `wait_and_organize` run: the returned
`(moved, skipped)` pair or the propagated `ValueError` of the unpacking,
together with the enqueue calls made, the final filesystem, the final
watched-peer set and the final expected-completion count. -/
structure RunResult where
  outcome : Except Unit (Int × Int)
  enqueued : List (String × List String)
  fs : Fs
  usernames : List String
  totalExpected : Nat
deriving Repr

/-- The loop `for dir_name in newly_done` (`organizer.py` lines 263-275).
`newly_done` is a string (one component of the unpacked pair), so Python
iterates over its characters; each one-character `dir_name` already
organized or absent from the watch map is skipped, otherwise the album is
organized and the name marked handled. -/
def processDone (downloads : List String) (st : LoopState) :
    List Char → LoopState
  | [] => st
  | c :: cs =>
    let dir_name : String := ⟨[c]⟩
    if dir_name ∈ st.organized then processDone downloads st cs
    else
      match assocGet? st.dirMap dir_name with
      | none => processDone downloads st cs
      | some (album_str, remote_dir) =>
        let r := _organize_album st.fs album_str remote_dir downloads
        processDone downloads
          { st with
            fs := r.2,
            movedCount := st.movedCount + (if r.1 then 1 else 0),
            organized := st.organized ++ [dir_name] }
          cs

/-- The loop `for dir_name in newly_failed` (`organizer.py` lines
277-337): like `processDone` it iterates over the characters of a
string.  A watched name looks up its album's result data; if the next
alternative index is in range it is enqueued (the model's enqueue always
succeeds), the attempt index is bumped, the watch map gains the new
directory, the peer set gains the new username and the expected count
grows; otherwise the alternatives are exhausted.  Either way the name is
marked handled. -/
def processFailed (results : Results) (st : LoopState) :
    List Char → LoopState
  | [] => st
  | c :: cs =>
    let dir_name : String := ⟨[c]⟩
    if dir_name ∈ st.organized then processFailed results st cs
    else
      match assocGet? st.dirMap dir_name with
      | none =>
        processFailed results { st with organized := st.organized ++ [dir_name] } cs
      | some (album_str, _remote_dir) =>
        match assocGet? results album_str with
        | none =>
          processFailed results { st with organized := st.organized ++ [dir_name] } cs
        | some none =>
          processFailed results { st with organized := st.organized ++ [dir_name] } cs
        | some (some data) =>
          let alts := data.alts
          let idx := (assocGet? st.attemptIndex album_str).getD 0 + 1
          match alts.get? idx with
          | none =>
            processFailed results { st with organized := st.organized ++ [dir_name] } cs
          | some next_alt =>
            processFailed results
              { st with
                attemptIndex := assocSet st.attemptIndex album_str idx,
                enqueued := st.enqueued ++ [(next_alt.username, next_alt.files)],
                dirMap := assocSet st.dirMap (_normalize_path next_alt.directory)
                    (album_str, next_alt.directory),
                usernames := insertIfAbsent st.usernames next_alt.username,
                totalExpected := st.totalExpected + 1,
                organized := st.organized ++ [dir_name] }
              cs

/-- One result value per remaining poll; the list plays the role of the
wall-clock deadline (running out of polls is the soft timeout). -/
def pollLoop (results : Results) (downloads : List String) (nullCount : Nat) :
    List (List Transfer) → LoopState → RunResult
  | [], st =>
    { outcome := .ok ((st.movedCount : Int),
        (st.totalExpected : Int) - (st.movedCount : Int) + (nullCount : Int)),
      enqueued := st.enqueued, fs := st.fs,
      usernames := st.usernames, totalExpected := st.totalExpected }
  | transfers :: rest, st =>
    let completed := _completed_directories transfers st.usernames
    match unpack2 completed with
    | .error e =>
      { outcome := .error e, enqueued := st.enqueued, fs := st.fs,
        usernames := st.usernames, totalExpected := st.totalExpected }
    | .ok (newly_done, newly_failed) =>
      let st1 := processDone downloads st newly_done.data
      let st2 := processFailed results st1 newly_failed.data
      if st2.totalExpected ≤ st2.organized.length then
        { outcome := .ok ((st2.movedCount : Int),
            (st2.totalExpected : Int) - (st2.movedCount : Int) + (nullCount : Int)),
          enqueued := st2.enqueued, fs := st2.fs,
          usernames := st2.usernames, totalExpected := st2.totalExpected }
      else pollLoop results downloads nullCount rest st2

/-- Function `wait_and_organize` from `organizer.py` lines 215-357, with the slskd
client replaced by the list of transfer snapshots its successive
`get_all_downloads()` calls return, and wall-clock time by that list's
length.  Note lines 258-261: the single set returned by
`_completed_directories` is destructured into `(newly_done, newly_failed)`,
which raises `ValueError` unless the set has exactly two elements. -/
def wait_and_organize (polls : List (List Transfer)) (results : Results)
    (usernames : List String) (fs : Fs) (downloads : List String) : RunResult :=
  let dirMap := _build_dir_to_album_map results
  let totalExpected := dirMap.length
  let nullCount := (results.filter (fun kv => kv.2.isNone)).length
  let attemptIndex := results.foldl
    (fun m kv =>
      match kv.2 with
      | some d => assocSet m kv.1 d.selectedIdx
      | none => m)
    []
  if totalExpected = 0 then
    { outcome := .ok (0, (nullCount : Int)), enqueued := [], fs := fs,
      usernames := usernames, totalExpected := 0 }
  else
    pollLoop results downloads nullCount polls
      { dirMap := dirMap, totalExpected := totalExpected, organized := [],
        movedCount := 0, attemptIndex := attemptIndex,
        usernames := usernames, fs := fs, enqueued := [] }

/-! ## Search result ranking (`search.py`, identical in both packages) -/

/-- Structure `AlbumSearchResult` from `search.py`, restricted to the fields
`rank_results` reads (plus identity fields used in examples). -/
structure AlbumSearchResult where
  username : String
  directory : String
  format : String
  bitrate : Int
  upload_speed : Int
  has_free_slot : Bool
  queue_length : Int
deriving DecidableEq, Repr

/-- A sort key value: the lexicographically ordered 5-tuple Python
compares. -/
abbrev RankKey := Nat ×ₗ (Nat ×ₗ (Int ×ₗ (Int ×ₗ Int)))

/-- Lookup `format_order.get(r.format, max_idx)`: the dict comprehension
`{fmt: idx for idx, fmt in enumerate(preferred_formats)}` keeps the last
index of a repeated format, and a missing format falls back to
`len(preferred_formats)`. -/
def formatOrderGet (preferred_formats : List String) (f : String) : Nat :=
  (preferred_formats.enum.foldl
    (fun acc p => if p.2 = f then some p.1 else acc) (none : Option Nat)).getD
    preferred_formats.length

/-- Function `sort_key` from `rank_results` (`search.py` lines 143-152): format
preference index, free-slot flag, negated bitrate, negated upload speed,
queue length. -/
def sort_key (preferred_formats : List String) (r : AlbumSearchResult) : RankKey :=
  toLex (formatOrderGet preferred_formats r.format,
    toLex ((if r.has_free_slot then 0 else 1 : Nat),
      toLex (-r.bitrate, toLex (-r.upload_speed, r.queue_length))))

/-- The ascending order on results induced by `sort_key`. -/
def rankLe (preferred_formats : List String) (a b : AlbumSearchResult) : Prop :=
  sort_key preferred_formats a ≤ sort_key preferred_formats b

instance (preferred_formats : List String) : DecidableRel (rankLe preferred_formats) :=
  fun a b => inferInstanceAs
    (Decidable (sort_key preferred_formats a ≤ sort_key preferred_formats b))

/-- Function `rank_results` (`search.py` lines 118-154 and its identical copy at
`rymscraper/search.py` lines 230-266): Python's `sorted(results,
key=sort_key)`, the stable ascending sort by the key — embedded as the
stable insertion sort with respect to `rankLe`. -/
def rank_results (results : List AlbumSearchResult)
    (preferred_formats : List String) : List AlbumSearchResult :=
  results.insertionSort (rankLe preferred_formats)

/-! ## Side conditions and concrete scenario data -/

/-- A filesystem is prefix-closed when every ancestor (every `take`) of an
existing path exists; real filesystems satisfy this. -/
def prefixClosedB (fs : Fs) : Bool :=
  fs.all (fun p => (List.range (p.length + 1)).all (fun k => fs.contains (p.take k)))

/-- No suffix of the character list matches `\s*\((\d{4})\)\s*$`: the
string does not end in a (possibly whitespace-surrounded) parenthesized
4-digit group. -/
def noTrailingParenYear (t : List Char) : Bool :=
  (List.range t.length).all (fun k => (matchYearEnd (t.drop k)).isNone)

/-- A transfer snapshot of a watched peer whose directories hold only
terminal files, several of them `"Completed, Rejected"`. -/
def c1Transfers : List Transfer :=
  [⟨"user1",
    [⟨"music\\Artist\\Album", [⟨"Completed, Rejected"⟩, ⟨"Completed, Rejected"⟩]⟩,
     ⟨"music\\Artist\\Album2", [⟨"Completed, Succeeded"⟩, ⟨"Completed, Rejected"⟩]⟩]⟩]

/-- The retry scenario: one album, two alternatives, the first selected. -/
def c2Results : Results :=
  [("Art1 - Album A (2020)", some (.withAlternatives 0
    [⟨"u1", "Music\\Art1\\Album A", ["Music\\Art1\\Album A\\01.flac"]⟩,
     ⟨"u2", "Music\\Art1v2\\Album A", ["Music\\Art1v2\\Album A\\01.flac"]⟩]))]

/-- First poll of the retry scenario: the first alternative's directory
is fully `"Completed, Rejected"`. -/
def c2Poll1 : List Transfer :=
  [⟨"u1", [⟨"Music\\Art1\\Album A", [⟨"Completed, Rejected"⟩]⟩]⟩]

/-- Second poll of the retry scenario: the second alternative's directory
has fully succeeded. -/
def c2Poll2 : List Transfer :=
  [⟨"u1", [⟨"Music\\Art1\\Album A", [⟨"Completed, Rejected"⟩]⟩]⟩,
   ⟨"u2", [⟨"Music\\Art1v2\\Album A", [⟨"Completed, Succeeded"⟩]⟩]⟩]

/-- Downloads directory holding the first scenario's source folder. -/
def c2Fs : Fs := [[], ["dl"], ["dl", "Album A"], ["dl", "Album A", "01.flac"]]

/-- The exhaustion scenario: one album with a single alternative. -/
def c4Results : Results :=
  [("Art1 - Album A (2020)", some (.withAlternatives 0
    [⟨"u1", "Music\\Art1\\Album A", ["Music\\Art1\\Album A\\01.flac"]⟩]))]

/-- A bare downloads root. -/
def c4Fs : Fs := [[], ["dl"]]

/-- A single-album result set used to exhibit a poll with fewer than two
classified directories. -/
def c3Results : Results := [("A - B", some (.legacy "u9" "X" []))]

/-- Two watched albums in the legacy result format. -/
def c5Results : Results :=
  [("Art1 - Album A (2020)", some (.legacy "u1" "Music\\Art1\\Album A" [])),
   ("Art2 - Album B (2021)", some (.legacy "u2" "Music\\Art2\\Album B" []))]

/-- Poll in which Album A is fully succeeded while Album B still has an
`"InProgress"` file next to a succeeded one. -/
def c5Poll1 : List Transfer :=
  [⟨"u1", [⟨"Music\\Art1\\Album A", [⟨"Completed, Succeeded"⟩]⟩]⟩,
   ⟨"u2", [⟨"Music\\Art2\\Album B", [⟨"Completed, Succeeded"⟩, ⟨"InProgress"⟩]⟩]⟩]

/-- The follow-up poll in which Album B has also succeeded. -/
def c5Poll2 : List Transfer :=
  [⟨"u1", [⟨"Music\\Art1\\Album A", [⟨"Completed, Succeeded"⟩]⟩]⟩,
   ⟨"u2", [⟨"Music\\Art2\\Album B", [⟨"Completed, Succeeded"⟩, ⟨"Completed, Succeeded"⟩]⟩]⟩]

/-- Downloads directory for the two-album scenario. -/
def c5Fs : Fs :=
  [[], ["dl"], ["dl", "Album A"], ["dl", "Album A", "01.flac"],
   ["dl", "Album B"], ["dl", "Album B", "01.flac"]]

/-- Downloads directory before the first organize call. -/
def c6Fs : Fs :=
  [[], ["dl"], ["dl", "Some Album (2020)"], ["dl", "Some Album (2020)", "01.flac"]]

/-- The filesystem after the first organize call has moved the album. -/
def c6Fs1 : Fs :=
  [[], ["dl"], ["dl", "Artist", "Some Album (2020)"],
   ["dl", "Artist", "Some Album (2020)", "01.flac"], ["dl", "Artist"]]

/-- A filesystem in which the organize target already exists. -/
def c7Fs : Fs := [[], ["dl"], ["dl", "Album"], ["dl", "Artist", "Album (2020)"]]

/-- A lossless candidate: FLAC, 1411 kbps, free upload slot, no queue. -/
def flacCand : AlbumSearchResult := ⟨"peerF", "dirF", "flac", 1411, 0, true, 0⟩

/-- A lossy candidate: MP3, 320 kbps, no free slot, one queued upload. -/
def mp3Cand : AlbumSearchResult := ⟨"peerM", "dirM", "mp3", 320, 0, false, 1⟩

/-- Two candidates with identical sort keys but different identities. -/
def eqCandA : AlbumSearchResult := ⟨"peerA", "dirA", "flac", 1000, 5, true, 0⟩

/-- Second of the equal-key pair. -/
def eqCandB : AlbumSearchResult := ⟨"peerB", "dirB", "flac", 1000, 5, true, 0⟩

/-! ## Shared helper lemmas -/

/-- Tuple destructuring of a list that does not hold exactly two elements
raises the `ValueError`. -/
theorem unpack2_eq_error {l : List String} (h : l.length ≠ 2) :
    unpack2 l = .error () := by
  match l with
  | [] => rfl
  | [_] => rfl
  | [_, _] => exact absurd rfl h
  | _ :: _ :: _ :: _ => rfl

/-- Membership: `List.contains` agrees with membership (strings have lawful `==`). -/
theorem contains_iff_mem {l : List (List String)} {q : List String} :
    l.contains q = true ↔ q ∈ l := by
  simp only [List.contains]
  exact List.elem_iff

/-- A list is a boolean prefix of itself. -/
theorem isPrefixOf_self (l : List String) : l.isPrefixOf l = true := by
  induction l with
  | nil => rfl
  | cons a t ih => simp [List.isPrefixOf, ih]

/-- Unfolding of the boolean prefix-closure check. -/
theorem prefixClosed_spec {fs : Fs} (h : prefixClosedB fs = true) :
    ∀ p ∈ fs, ∀ q, q <+: p → q ∈ fs := by
  intro p hp q hq
  have hall := (List.all_eq_true.mp h) p hp
  have hlen : q.length < p.length + 1 :=
    Nat.lt_succ_of_le hq.length_le
  have hk := (List.all_eq_true.mp hall) q.length (List.mem_range.mpr hlen)
  rw [List.prefix_iff_eq_take.mp hq]
  exact contains_iff_mem.mp hk

/-! ## C1 -/

/-- C1: the claim fails on the code.  In a snapshot of watched peer
`user1` whose first directory holds only `"Completed, Rejected"` files
and whose second mixes `"Completed, Succeeded"` with
`"Completed, Rejected"`, `_completed_directories` classifies nothing at
all — it returns the empty set rather than marking either directory
Failed, because `"Completed, Rejected"` is missing from
`_COMPLETED_STATES` and the function computes no failure classification. -/
theorem completed_directories_ignores_rejected :
    _completed_directories c1Transfers ["user1"] = [] ∧
    "Completed, Rejected" ∉ _COMPLETED_STATES := by
  exact ⟨rfl, by decide⟩

/-! ## C2 -/

/-- C2: the claim fails on the code.  In the retry scenario (one album,
two alternatives, first poll all-`Rejected` for the first alternative,
second poll succeeded for the second), the run raises the unpacking
`ValueError` on the first poll: no retry is enqueued, the watched-peer
set never gains `u2`, the expected count stays at 1, and no
`(moved, skipped)` pair is returned at all. -/
theorem wait_and_organize_retry_scenario_raises :
    (wait_and_organize [c2Poll1, c2Poll2] c2Results ["u1"] c2Fs ["dl"]).outcome
      = .error () ∧
    (wait_and_organize [c2Poll1, c2Poll2] c2Results ["u1"] c2Fs ["dl"]).enqueued = [] ∧
    (wait_and_organize [c2Poll1, c2Poll2] c2Results ["u1"] c2Fs ["dl"]).usernames
      = ["u1"] ∧
    (wait_and_organize [c2Poll1, c2Poll2] c2Results ["u1"] c2Fs ["dl"]).totalExpected = 1 := by
  exact ⟨rfl, rfl, rfl, rfl⟩

/-! ## C3 -/

/-- C3: `_completed_directories` returns one single set, and
`wait_and_organize` destructures it into `(newly_done, newly_failed)`;
whenever the set produced on the first poll of a non-trivial run has a
number of elements other than two, the destructuring raises `ValueError`
and the run aborts with no classification performed. -/
theorem wait_and_organize_unpack_error (p : List Transfer)
    (rest : List (List Transfer)) (results : Results) (usernames : List String)
    (fs : Fs) (downloads : List String)
    (h0 : _build_dir_to_album_map results ≠ [])
    (h2 : (_completed_directories p usernames).length ≠ 2) :
    (wait_and_organize (p :: rest) results usernames fs downloads).outcome
      = .error () := by
  have hlen : ¬ (_build_dir_to_album_map results).length = 0 :=
    fun h => h0 (List.length_eq_zero.mp h)
  unfold wait_and_organize
  rw [if_neg hlen]
  unfold pollLoop
  dsimp only
  rw [unpack2_eq_error h2]

/-- Witness for C3: a run over one watched legacy album whose poll
reports no transfers at all yields an empty classification set (size 0),
so the unpacking error branch is reached. -/
theorem wait_and_organize_unpack_error_witness :
    (wait_and_organize [[]] c3Results [] [] []).outcome = .error () :=
  wait_and_organize_unpack_error [] [] c3Results [] [] []
    (by decide) (by decide)

/-! ## C4 -/

/-- C4: the claim fails on the code.  In the exhaustion scenario (one
album, a single alternative whose directory is all
`"Completed, Rejected"`), the code raises the unpacking `ValueError` on
the first poll instead of counting the album skipped: no enqueue is
made, but the claimed exception-free `(0, 1)` return never happens. -/
theorem wait_and_organize_exhaustion_scenario_raises :
    (wait_and_organize [c2Poll1] c4Results ["u1"] c4Fs ["dl"]).outcome
      = .error () ∧
    (wait_and_organize [c2Poll1] c4Results ["u1"] c4Fs ["dl"]).enqueued = [] := by
  exact ⟨rfl, rfl⟩

/-! ## C5 -/

/-- C5: the claim fails on the code.  In a poll where Album A's directory
is fully succeeded while Album B's directory still holds an
`"InProgress"` file, the classifier indeed places Album B's directory in
neither part of any classification (the returned set holds only Album
A's path), but the run does not keep Album B pending until the next
poll: the single-element set makes the unpacking raise `ValueError` and
the whole run aborts. -/
theorem in_progress_directory_aborts_run :
    _completed_directories c5Poll1 ["u1", "u2"] = ["Music/Art1/Album A"] ∧
    "Music/Art2/Album B" ∉ _completed_directories c5Poll1 ["u1", "u2"] ∧
    (wait_and_organize [c5Poll1, c5Poll2] c5Results ["u1", "u2"] c5Fs ["dl"]).outcome
      = .error () := by
  exact ⟨rfl, by decide, rfl⟩

/-! ## C7 -/

/-- C7: `_organize_album` never overwrites.  Whenever the source is
missing, or the album label does not parse, or the computed target
already exists and differs from the source, the call returns `false` and
leaves the filesystem exactly as it was. -/
theorem organize_album_no_overwrite (fs : Fs) (a r : String) (d : List String)
    (h : sourcePath r d ∉ fs ∨ Album.from_line a = none ∨
      ∃ alb, Album.from_line a = some alb ∧ _album_target_dir alb d ∈ fs ∧
        sourcePath r d ≠ _album_target_dir alb d) :
    _organize_album fs a r d = (false, fs) := by
  unfold _organize_album
  by_cases hs : sourcePath r d ∈ fs
  · rw [if_neg (not_not_intro hs)]
    rcases h with h | h | ⟨alb, halb, htgt, hne⟩
    · exact absurd hs h
    · rw [h]
    · rw [halb]
      dsimp only
      rw [if_neg hne, if_pos htgt]
  · rw [if_pos hs]

/-- Witness for C7: with the target `dl/Artist/Album (2020)` already
present, organizing `dl/Album` returns `false` and the filesystem is
unchanged. -/
theorem organize_album_no_overwrite_witness :
    _organize_album c7Fs "Artist - Album (2020)" "Music\\Artist\\Album" ["dl"]
      = (false, c7Fs) :=
  organize_album_no_overwrite c7Fs "Artist - Album (2020)" "Music\\Artist\\Album" ["dl"]
    (Or.inr (Or.inr ⟨⟨"Artist", "Album", "2020"⟩, by decide, by decide, by decide⟩))

/-! ## C8 -/

/-- C8: path normalization is consistent across the two subsystems: the
organizer's `_normalize_path` (used to build the watch-map keys) and the
classifier's inline normalization agree on every input, and both send
`"A\B\C"` to `"A/B/C"`. -/
theorem normalize_path_consistent :
    (∀ s, _normalize_path s = slskdNormalizeDir s) ∧
    _normalize_path "A\\B\\C" = "A/B/C" ∧
    slskdNormalizeDir "A\\B\\C" = "A/B/C" := by
  exact ⟨fun s => rfl, rfl, rfl⟩

/-! ## C9 -/

/-- C9: `rank_results` sorts the candidates ascending by the tuple
(format-preference index with the list length as sentinel, free-slot
flag, negated bitrate, negated upload speed, queue length): the output
is a permutation of the input, pairwise ordered by the key, and stable
(candidates with equal keys keep their relative input order); in
particular a FLAC/1411 kbps/free-slot candidate ranks before an
MP3/320 kbps/queued one under the preference `["flac", "mp3"]`. -/
theorem rank_results_sorted_stable :
    (∀ (fmts : List String) (results : List AlbumSearchResult),
      List.Perm (rank_results results fmts) results ∧
      List.Sorted (rankLe fmts) (rank_results results fmts) ∧
      (∀ a b, sort_key fmts a = sort_key fmts b → [a, b].Sublist results →
        [a, b].Sublist (rank_results results fmts))) ∧
    rank_results [mp3Cand, flacCand] ["flac", "mp3"] = [flacCand, mp3Cand] := by
  constructor
  · intro fmts results
    have ht : IsTotal AlbumSearchResult (rankLe fmts) :=
      ⟨fun a b => le_total (sort_key fmts a) (sort_key fmts b)⟩
    have hr : IsTrans AlbumSearchResult (rankLe fmts) :=
      ⟨fun _ _ _ h1 h2 => le_trans h1 h2⟩
    refine ⟨List.perm_insertionSort _ _, List.sorted_insertionSort _ _, ?_⟩
    intro a b hk hs
    exact List.pair_sublist_insertionSort (le_of_eq hk) hs
  · decide

/-- Witness for C9: two candidates with identical sort keys keep their
relative order through `rank_results`. -/
theorem rank_results_sorted_stable_witness :
    [eqCandA, eqCandB].Sublist (rank_results [mp3Cand, eqCandA, eqCandB] ["flac", "mp3"]) :=
  (rank_results_sorted_stable.1 ["flac", "mp3"] [mp3Cand, eqCandA, eqCandB]).2.2
    eqCandA eqCandB (by decide) (by decide)

/-! ## C6 -/

/-- C6 counterexample: after a first call has genuinely moved
`dl/Some Album (2020)` to `dl/Artist/Some Album (2020)` and returned
`true`, the second call with the same arguments returns `false` (the
derived source no longer exists), not `true` as claimed. -/
theorem organize_album_not_idempotent_cex :
    _organize_album c6Fs "Artist - Some Album (2020)"
        "Music\\Artist\\Some Album (2020)" ["dl"] = (true, c6Fs1) ∧
    _organize_album c6Fs1 "Artist - Some Album (2020)"
        "Music\\Artist\\Some Album (2020)" ["dl"] = (false, c6Fs1) := by
  exact ⟨rfl, rfl⟩

/-- C6 amended: on a prefix-closed filesystem, when a first
`_organize_album` call has moved the source into a distinct target and
returned `true`, a second call with the same arguments is a no-op on the
filesystem but returns `false` — the moved source directory no longer
exists.  (Only when the derived source equals the target does a repeated
call return `true`, as a no-op.) -/
theorem organize_album_second_call (fs fs1 : Fs) (a r : String) (d : List String)
    (alb : Album)
    (hclosed : prefixClosedB fs = true)
    (halb : Album.from_line a = some alb)
    (hne : sourcePath r d ≠ _album_target_dir alb d)
    (h1 : _organize_album fs a r d = (true, fs1)) :
    _organize_album fs1 a r d = (false, fs1) := by
  unfold _organize_album at h1
  by_cases hs : sourcePath r d ∈ fs
  · rw [if_neg (not_not_intro hs), halb] at h1
    dsimp only at h1
    rw [if_neg hne] at h1
    by_cases ht : _album_target_dir alb d ∈ fs
    · rw [if_pos ht] at h1
      simp at h1
    · rw [if_neg ht] at h1
      by_cases hp : (sourcePath r d).isPrefixOf (_album_target_dir alb d) = true
      · rw [if_pos hp] at h1
        simp at h1
      · rw [if_neg hp] at h1
        have hfs1 : fs1 =
            moveTree (mkdirParents fs (_album_target_dir alb d).dropLast)
              (sourcePath r d) (_album_target_dir alb d) := by
          have h2 := congrArg Prod.snd h1
          exact h2.symm
        have hsrc1 : sourcePath r d ∉ fs1 := by
          intro hmem
          rw [hfs1] at hmem
          unfold moveTree at hmem
          obtain ⟨q, _, hfq⟩ := List.mem_map.mp hmem
          by_cases hpre : (sourcePath r d).isPrefixOf q = true
          · rw [if_pos hpre] at hfq
            have hpref : _album_target_dir alb d <+: sourcePath r d :=
              ⟨q.drop (sourcePath r d).length, hfq⟩
            exact ht (prefixClosed_spec hclosed _ hs _ hpref)
          · rw [if_neg hpre] at hfq
            rw [hfq] at hpre
            exact hpre (isPrefixOf_self _)
        unfold _organize_album
        rw [if_pos hsrc1]
  · rw [if_pos hs] at h1
    simp at h1

/-- Witness for the amended C6: the concrete first/second call pair on
the prefix-closed downloads directory. -/
theorem organize_album_second_call_witness :
    _organize_album c6Fs1 "Artist - Some Album (2020)"
        "Music\\Artist\\Some Album (2020)" ["dl"] = (false, c6Fs1) :=
  organize_album_second_call c6Fs c6Fs1 "Artist - Some Album (2020)"
    "Music\\Artist\\Some Album (2020)" ["dl"] ⟨"Artist", "Some Album", "2020"⟩
    (by decide) (by decide) (by decide) (by decide)

/-! ## Helper lemmas for the label round trip (C10) -/

/-- A list with a non-whitespace member survives `dropWhile`. -/
theorem dropWhile_ne_nil_of_mem {l : List Char} {c : Char} (hc : c ∈ l)
    (hns : pyIsSpace c = false) : l.dropWhile pyIsSpace ≠ [] := by
  induction l with
  | nil => cases hc
  | cons a t ih =>
    rw [List.dropWhile_cons]
    by_cases ha : pyIsSpace a = true
    · rw [if_pos ha]
      rcases List.mem_cons.mp hc with h | h
      · subst h
        rw [hns] at ha
        cases ha
      · exact ih h
    · rw [if_neg ha]
      simp

/-- The head of a non-empty `dropWhile pyIsSpace` result is a
non-whitespace member of the original list. -/
theorem dropWhile_head_spec {l : List Char} (h : l.dropWhile pyIsSpace ≠ []) :
    ∃ c r, l.dropWhile pyIsSpace = c :: r ∧ pyIsSpace c = false ∧ c ∈ l := by
  induction l with
  | nil => exact absurd rfl h
  | cons a t ih =>
    rw [List.dropWhile_cons] at h ⊢
    by_cases ha : pyIsSpace a = true
    · rw [if_pos ha] at h ⊢
      obtain ⟨c, r, h1, h2, h3⟩ := ih h
      exact ⟨c, r, h1, h2, List.mem_cons_of_mem _ h3⟩
    · rw [if_neg ha]
      exact ⟨a, t, rfl, by simpa using ha, List.mem_cons_self _ _⟩

/-- Dropping whitespace distributes over an append whose left part does
not vanish. -/
theorem dropWhile_append_of_ne_nil {l X : List Char}
    (h : l.dropWhile pyIsSpace ≠ []) :
    (l ++ X).dropWhile pyIsSpace = l.dropWhile pyIsSpace ++ X := by
  rw [List.dropWhile_append, if_neg]
  simpa using h

/-- A string equal to its own strip is untouched by `dropWhile` from
either end. -/
theorem strip_eq_self_spec {l : List Char} (h : pyStrip l = l) :
    l.dropWhile pyIsSpace = l ∧ l.reverse.dropWhile pyIsSpace = l.reverse := by
  have h1 : (l.dropWhile pyIsSpace).length ≤ l.length :=
    (List.dropWhile_suffix pyIsSpace).length_le
  have h2 : ((l.dropWhile pyIsSpace).reverse.dropWhile pyIsSpace).length ≤
      (l.dropWhile pyIsSpace).length := by
    have := (List.dropWhile_suffix (l := (l.dropWhile pyIsSpace).reverse) pyIsSpace).length_le
    simpa using this
  have hlen : ((l.dropWhile pyIsSpace).reverse.dropWhile pyIsSpace).length = l.length := by
    have := congrArg List.length h
    simpa [pyStrip] using this
  have hd1 : l.dropWhile pyIsSpace = l :=
    (List.dropWhile_suffix pyIsSpace).eq_of_length (by omega)
  refine ⟨hd1, ?_⟩
  rw [hd1] at hlen
  exact (List.dropWhile_suffix pyIsSpace).eq_of_length (by simpa using hlen)

/-- The head of a list untouched by `dropWhile pyIsSpace` is not
whitespace. -/
theorem head_not_space {c : Char} {t : List Char}
    (h : (c :: t).dropWhile pyIsSpace = c :: t) : pyIsSpace c = false := by
  by_contra hns
  rw [Bool.not_eq_false] at hns
  rw [List.dropWhile_cons, if_pos hns] at h
  have hl := congrArg List.length h
  have hle : (t.dropWhile pyIsSpace).length ≤ t.length :=
    (List.dropWhile_suffix pyIsSpace).length_le
  simp at hl
  omega

/-- A non-empty list whose reverse is untouched by `dropWhile pyIsSpace`
ends in a non-whitespace character. -/
theorem getLast_not_space {l : List Char} (hne : l ≠ [])
    (h : l.reverse.dropWhile pyIsSpace = l.reverse) :
    ∃ c, l.getLast? = some c ∧ pyIsSpace c = false := by
  have hrne : l.reverse ≠ [] := by simpa using hne
  obtain ⟨c, r, hcr⟩ : ∃ c r, l.reverse = c :: r := by
    cases hrev : l.reverse with
    | nil => exact absurd hrev hrne
    | cons c r => exact ⟨c, r, rfl⟩
  rw [hcr] at h
  refine ⟨c, ?_, head_not_space h⟩
  rw [List.getLast?_eq_head?_reverse, hcr]
  rfl

/-- Every non-empty suffix of a list ending in a non-whitespace character
contains that character. -/
theorem suffix_has_nonspace {l s : List Char}
    (hl : ∃ c, l.getLast? = some c ∧ pyIsSpace c = false)
    (hs : s <:+ l) (hsne : s ≠ []) : ∃ c ∈ s, pyIsSpace c = false := by
  obtain ⟨t, rfl⟩ := hs
  obtain ⟨c, hc, hns⟩ := hl
  rw [List.getLast?_append, List.getLast?_eq_getLast_of_ne_nil hsne] at hc
  simp only [Option.or_some, Option.some.injEq] at hc
  exact ⟨c, hc ▸ List.getLast_mem hsne, hns⟩

/-- A suffix with a non-whitespace member makes `all pyIsSpace` fail on
any extension. -/
theorem append_all_space_false {s X : List Char}
    (h : ∃ c ∈ s, pyIsSpace c = false) : (s ++ X).all pyIsSpace = false := by
  obtain ⟨c, hc, hns⟩ := h
  rw [List.all_eq_false]
  exact ⟨c, List.mem_append_left _ hc, by simp [hns]⟩

/-- When the whitespace-stripped scrutinee has at least seven characters
and ends in `')'`, the year pattern cannot match: its trailing
whitespace-run would have to contain the final `')'`. -/
theorem matchYearEnd_eq_none {cs : List Char}
    (h7 : 7 ≤ (cs.dropWhile pyIsSpace).length)
    (hlast : (cs.dropWhile pyIsSpace).getLast? = some ')') :
    matchYearEnd cs = none := by
  unfold matchYearEnd
  split
  case _ d1 d2 d3 d4 rest heq =>
    rw [heq] at h7 hlast
    obtain ⟨r0, rest', rfl⟩ : ∃ r0 rest', rest = r0 :: rest' := by
      cases rest with
      | nil => simp at h7
      | cons r0 rest' => exact ⟨r0, rest', rfl⟩
    simp only [List.getLast?_cons_cons] at hlast
    have hmem : ')' ∈ r0 :: rest' := by
      rw [List.getLast?_eq_getLast_of_ne_nil (by simp)] at hlast
      simp only [Option.some.injEq] at hlast
      exact hlast ▸ List.getLast_mem (by simp)
    have hall : (r0 :: rest').all pyIsSpace = false := by
      rw [List.all_eq_false]
      exact ⟨')', hmem, by decide⟩
    rw [hall, Bool.and_false]
    rfl
  case _ => rfl

/-- The year pattern does match the exact tail `" (dddd)"` for four
decimal digits. -/
theorem matchYearEnd_exact {y1 y2 y3 y4 : Char}
    (h : [y1, y2, y3, y4].all pyIsDigit = true) :
    matchYearEnd (' ' :: '(' :: ([y1, y2, y3, y4] ++ [')'])) = some [y1, y2, y3, y4] := by
  have hd : matchYearEnd (' ' :: '(' :: ([y1, y2, y3, y4] ++ [')'])) =
      if ([y1, y2, y3, y4].all pyIsDigit && List.all [] pyIsSpace) then
        some [y1, y2, y3, y4]
      else none := rfl
  rw [hd, h]
  rfl

/-- Unfolding of the no-trailing-parenthesized-year check: no non-empty
suffix matches the year pattern. -/
theorem noTrailingParenYear_spec {t : List Char} (h : noTrailingParenYear t = true) :
    ∀ s, s <:+ t → s ≠ [] → matchYearEnd s = none := by
  intro s hs hne
  obtain ⟨pre, hpre⟩ := hs
  have hk : t.drop pre.length = s := by rw [← hpre]; exact List.drop_left pre s
  have hslen : 0 < s.length := List.length_pos.mpr hne
  have hklt : pre.length < t.length := by
    have := congrArg List.length hpre
    simp [List.length_append] at this
    omega
  have hx := (List.all_eq_true.mp h) pre.length (List.mem_range.mpr hklt)
  rw [hk] at hx
  simpa [Option.isNone_iff_eq_none] using hx

/-- One-step unfolding of `tailGo` on a cons cell whose head the dot can
match. -/
theorem tailGo_cons {acc : List Char} {c : Char} {rest : List Char}
    (h : ¬ c = '\n') :
    tailGo acc (c :: rest) =
      match matchYearEnd rest with
      | some y => some (acc ++ [c], y)
      | none =>
        if rest.all pyIsSpace then some (acc ++ [c], [])
        else tailGo (acc ++ [c]) rest := by
  simp only [tailGo]
  rw [if_neg h]

/-- One-step unfolding of `outerGo` on a cons cell whose head the dot can
match. -/
theorem outerGo_cons {acc : List Char} {c : Char} {rest : List Char}
    (h : ¬ c = '\n') :
    outerGo acc (c :: rest) =
      match sepThenTail rest with
      | some (t, y) => some (acc ++ [c], t, y)
      | none => outerGo (acc ++ [c]) rest := by
  simp only [outerGo]
  rw [if_neg h]

/-- Running the tail backtracking over `title ++ yearpart`: every proper
split point fails (no year match, not all whitespace), so the non-greedy
title group grows to exactly the title, where the year part resolves. -/
theorem tailGo_run {Y yd : List Char}
    (hfin : matchYearEnd Y = some yd ∨ (Y = [] ∧ yd = [])) :
    ∀ t2 : List Char, t2 ≠ [] →
      (∀ s, s <:+ t2 → s ≠ [] →
        matchYearEnd (s ++ Y) = none ∧ (s ++ Y).all pyIsSpace = false) →
      (∀ c ∈ t2, ¬ c = '\n') →
      ∀ t1, tailGo t1 (t2 ++ Y) = some (t1 ++ t2, yd) := by
  intro t2
  induction t2 with
  | nil => intro h; exact absurd rfl h
  | cons c t2' ih =>
    intro _ hsuf hnl t1
    rw [List.cons_append, tailGo_cons (hnl c (List.mem_cons_self _ _))]
    cases t2' with
    | nil =>
      rcases hfin with hf | ⟨hY, hyd⟩
      · rw [List.nil_append, hf]
      · subst hY; subst hyd
        rfl
    | cons c2 t2'' =>
      have hsub := hsuf (c2 :: t2'') ⟨[c], rfl⟩ (by simp)
      rw [hsub.1, hsub.2]
      simp only [Bool.false_eq_true, if_false]
      have hrec := ih (by simp)
        (fun s hs hne => hsuf s (hs.trans ⟨[c], rfl⟩) hne)
        (fun c2 hc2 => hnl c2 (List.mem_cons_of_mem _ hc2)) (t1 ++ [c])
      simpa [List.append_assoc] using hrec

/-- A non-empty suffix of the artist part (whose characters are never
`'-'` and which contains a non-whitespace character) never matches the
separator. -/
theorem sepThenTail_eq_none {s R : List Char}
    (hnws : ∃ c ∈ s, pyIsSpace c = false)
    (hdash : ∀ c ∈ s, c ≠ '-') :
    sepThenTail (s ++ R) = none := by
  obtain ⟨c0, hc0, hns0⟩ := hnws
  have hne : s.dropWhile pyIsSpace ≠ [] := dropWhile_ne_nil_of_mem hc0 hns0
  obtain ⟨c, r, hcr, hcns, hcmem⟩ := dropWhile_head_spec hne
  unfold sepThenTail
  rw [dropWhile_append_of_ne_nil hne, hcr, List.cons_append]
  exact if_neg (hdash c hcmem)

/-- The separator-and-tail pattern succeeds on the canonical
`" - " ++ T` remainder when `T` starts with a non-whitespace character
and the tail backtracking succeeds on `T`. -/
theorem sepThenTail_sep {T tRaw yRaw : List Char}
    (hT : T.dropWhile pyIsSpace = T)
    (htail : tailGo [] T = some (tRaw, yRaw)) :
    sepThenTail (' ' :: '-' :: ' ' :: T) = some (tRaw, yRaw) := by
  have htw : T.takeWhile pyIsSpace = [] := by
    have happ := List.takeWhile_append_dropWhile (p := pyIsSpace) (l := T)
    rw [hT] at happ
    have hl := congrArg List.length happ
    simp only [List.length_append] at hl
    have h0 : (T.takeWhile pyIsSpace).length = 0 := by omega
    exact List.length_eq_zero.mp h0
  have hscr : (' ' :: '-' :: ' ' :: T).dropWhile pyIsSpace = '-' :: (' ' :: T) := rfl
  unfold sepThenTail
  rw [hscr]
  dsimp only
  rw [if_pos rfl]
  have h1 : (' ' :: T).takeWhile pyIsSpace = ' ' :: T.takeWhile pyIsSpace := rfl
  have h2 : (' ' :: T).dropWhile pyIsSpace = T.dropWhile pyIsSpace := rfl
  rw [h1, h2, htw, hT, List.reverse_singleton]
  show (match tailGo [] T with
    | some r => some r
    | none => wsTry [] (' ' :: T)) = some (tRaw, yRaw)
  rw [htail]

/-- Running the outer backtracking over `artist ++ rest`: every proper
split point fails (the next non-whitespace character is an artist
character, never `'-'`), so the non-greedy artist group grows to exactly
the artist, where the separator pattern resolves. -/
theorem outerGo_run {R tRaw yRaw : List Char}
    (hfin : sepThenTail R = some (tRaw, yRaw)) :
    ∀ a2 : List Char, a2 ≠ [] →
      (∀ s, s <:+ a2 → s ≠ [] → sepThenTail (s ++ R) = none) →
      (∀ c ∈ a2, ¬ c = '\n') →
      ∀ a1, outerGo a1 (a2 ++ R) = some (a1 ++ a2, tRaw, yRaw) := by
  intro a2
  induction a2 with
  | nil => intro h; exact absurd rfl h
  | cons c a2' ih =>
    intro _ hsuf hnl a1
    rw [List.cons_append, outerGo_cons (hnl c (List.mem_cons_self _ _))]
    cases a2' with
    | nil =>
      rw [List.nil_append, hfin]
    | cons c2 a2'' =>
      have hsub := hsuf (c2 :: a2'') ⟨[c], rfl⟩ (by simp)
      rw [hsub]
      have hrec := ih (by simp)
        (fun s hs hne => hsuf s (hs.trans ⟨[c], rfl⟩) hne)
        (fun c2 hc2 => hnl c2 (List.mem_cons_of_mem _ hc2)) (a1 ++ [c])
      simpa [List.append_assoc] using hrec

/-- Character data of the formatted label when the year is present. -/
theorem str_data_of_year (ar ti yr : String) (hy : ¬ yr = "") :
    (Album.str ⟨ar, ti, yr⟩).data =
      ar.data ++ (' ' :: '-' :: ' ' :: (ti.data ++ (' ' :: '(' :: (yr.data ++ [')'])))) := by
  unfold Album.str
  dsimp only
  rw [if_pos hy]
  have e : (ar ++ " - " ++ ti ++ " (" ++ yr ++ ")").data =
      ((((ar.data ++ [' ', '-', ' ']) ++ ti.data) ++ [' ', '(']) ++ yr.data) ++ [')'] := rfl
  rw [e]
  simp [List.append_assoc]

/-- Character data of the formatted label when the year is empty. -/
theorem str_data_no_year (ar ti : String) :
    (Album.str ⟨ar, ti, ""⟩).data = ar.data ++ (' ' :: '-' :: ' ' :: ti.data) := by
  unfold Album.str
  dsimp only
  rw [if_neg (by simp)]
  have e : (ar ++ " - " ++ ti).data = (ar.data ++ [' ', '-', ' ']) ++ ti.data := rfl
  rw [e]
  simp [List.append_assoc]

/-! ## C10 -/

/-- C10 counterexample: the artist `"ab-cd"` contains no `" - "`
separator substring, the title `"t"` is plain, the year is empty —
yet `from_line (str album)` parses back `⟨"ab", "cd - t", ""⟩`, because
the regex splits at the first bare `-`, so the round trip fails. -/
theorem album_label_roundtrip_cex :
    ¬ (" - ".data <:+: "ab-cd".data) ∧
    ¬ (" - ".data <:+: "t".data) ∧
    noTrailingParenYear "t".data = true ∧
    Album.str ⟨"ab-cd", "t", ""⟩ = "ab-cd - t" ∧
    Album.from_line (Album.str ⟨"ab-cd", "t", ""⟩) = some ⟨"ab", "cd - t", ""⟩ ∧
    (⟨"ab", "cd - t", ""⟩ : Album) ≠ ⟨"ab-cd", "t", ""⟩ := by
  refine ⟨by decide, by decide, by decide, rfl, rfl, by decide⟩

/-- C10 amended: the label round-trips for every album whose artist and
title are non-empty, equal to their whitespace-stripped forms and free of
newlines (which `.*?` cannot match), whose artist contains no `'-'`
character at all (not merely no `" - "`), whose title does not end in a
(possibly whitespace-surrounded) parenthesized 4-digit group, and whose
year is empty or four decimal-digit characters (`\d`):
`Album.from_line (Album.str a)` recovers exactly `a`. -/
theorem album_label_roundtrip (a : Album)
    (hane : a.artist.data ≠ [])
    (hastrip : pyStrip a.artist.data = a.artist.data)
    (hadash : '-' ∉ a.artist.data)
    (hanl : '\n' ∉ a.artist.data)
    (htne : a.title.data ≠ [])
    (htstrip : pyStrip a.title.data = a.title.data)
    (htnl : '\n' ∉ a.title.data)
    (htparen : noTrailingParenYear a.title.data = true)
    (hyear : a.year = "" ∨ (a.year.data.length = 4 ∧ a.year.data.all pyIsDigit = true)) :
    Album.from_line (Album.str a) = some a := by
  obtain ⟨ar, ti, yr⟩ := a
  dsimp only at hane hastrip hadash hanl htne htstrip htnl htparen hyear
  obtain ⟨hA1, hA2⟩ := strip_eq_self_spec hastrip
  have hAlast := getLast_not_space hane hA2
  obtain ⟨hT1, hT2⟩ := strip_eq_self_spec htstrip
  have hTlast := getLast_not_space htne hT2
  rcases hyear with hy | ⟨hylen, hydig⟩
  · subst hy
    have hsufT : ∀ s, s <:+ ti.data → s ≠ [] →
        matchYearEnd (s ++ ([] : List Char)) = none ∧
        (s ++ ([] : List Char)).all pyIsSpace = false := by
      intro s hs hne
      rw [List.append_nil]
      refine ⟨noTrailingParenYear_spec htparen s hs hne, ?_⟩
      obtain ⟨c, hc, hcns⟩ := suffix_has_nonspace hTlast hs hne
      rw [List.all_eq_false]
      exact ⟨c, hc, by simp [hcns]⟩
    have htail := tailGo_run (Or.inr ⟨rfl, rfl⟩) ti.data htne hsufT
      (fun c hc he => htnl (he ▸ hc)) []
    rw [List.append_nil, List.nil_append] at htail
    have hfinR : sepThenTail (' ' :: '-' :: ' ' :: ti.data) = some (ti.data, []) :=
      sepThenTail_sep hT1 htail
    have hsufA : ∀ s, s <:+ ar.data → s ≠ [] →
        sepThenTail (s ++ (' ' :: '-' :: ' ' :: ti.data)) = none := fun s hs hne =>
      sepThenTail_eq_none (suffix_has_nonspace hAlast hs hne)
        (fun c hc hceq => hadash (hceq ▸ hs.subset hc))
    have houter := outerGo_run hfinR ar.data hane hsufA
      (fun c hc he => hanl (he ▸ hc)) []
    rw [List.nil_append] at houter
    unfold Album.from_line
    rw [str_data_no_year ar ti, houter]
    dsimp only
    rw [hastrip, htstrip]
  · have hyne : ¬ yr = "" := by
      intro h
      rw [h] at hylen
      simp at hylen
    have hsufT : ∀ s, s <:+ ti.data → s ≠ [] →
        matchYearEnd (s ++ (' ' :: '(' :: (yr.data ++ [')']))) = none ∧
        (s ++ (' ' :: '(' :: (yr.data ++ [')']))).all pyIsSpace = false := by
      intro s hs hne
      have hnws := suffix_has_nonspace hTlast hs hne
      have hsdne : s.dropWhile pyIsSpace ≠ [] := by
        obtain ⟨c, hc, hcns⟩ := hnws
        exact dropWhile_ne_nil_of_mem hc hcns
      have hsdpos : 0 < (s.dropWhile pyIsSpace).length := List.length_pos.mpr hsdne
      refine ⟨matchYearEnd_eq_none ?_ ?_, append_all_space_false hnws⟩
      · rw [dropWhile_append_of_ne_nil hsdne]
        rw [List.length_append]
        have h7 : (' ' :: '(' :: (yr.data ++ [')'])).length = 7 := by
          simp [List.length_append, hylen]
        omega
      · rw [dropWhile_append_of_ne_nil hsdne, List.getLast?_append]
        have hY : (' ' :: '(' :: (yr.data ++ [')'])).getLast? = some ')' := by
          rw [show (' ' :: '(' :: (yr.data ++ [')'])) = ((' ' :: '(' :: yr.data) ++ [')'])
            from by simp]
          rw [List.getLast?_append]
          rfl
        rw [hY]
        simp
    have hfinY : matchYearEnd (' ' :: '(' :: (yr.data ++ [')'])) = some yr.data := by
      obtain ⟨y1, y2, y3, y4, hyd⟩ : ∃ y1 y2 y3 y4, yr.data = [y1, y2, y3, y4] := by
        rcases hdl : yr.data with _ | ⟨a1, _ | ⟨a2, _ | ⟨a3, _ | ⟨a4, _ | ⟨a5, t⟩⟩⟩⟩⟩ <;>
          rw [hdl] at hylen <;> simp_all
      rw [hyd]
      rw [hyd] at hydig
      exact matchYearEnd_exact hydig
    have htail := tailGo_run (Or.inl hfinY) ti.data htne hsufT
      (fun c hc he => htnl (he ▸ hc)) []
    rw [List.nil_append] at htail
    have hTY : (ti.data ++ (' ' :: '(' :: (yr.data ++ [')']))).dropWhile pyIsSpace
        = ti.data ++ (' ' :: '(' :: (yr.data ++ [')'])) := by
      cases hti : ti.data with
      | nil => exact absurd hti htne
      | cons c t =>
        have hc : pyIsSpace c = false := head_not_space (hti ▸ hT1)
        rw [List.cons_append, List.dropWhile_cons_of_neg (by simp [hc])]
    have hfinR := sepThenTail_sep hTY htail
    have hsufA : ∀ s, s <:+ ar.data → s ≠ [] →
        sepThenTail (s ++ (' ' :: '-' :: ' ' ::
          (ti.data ++ (' ' :: '(' :: (yr.data ++ [')']))))) = none := fun s hs hne =>
      sepThenTail_eq_none (suffix_has_nonspace hAlast hs hne)
        (fun c hc hceq => hadash (hceq ▸ hs.subset hc))
    have houter := outerGo_run hfinR ar.data hane hsufA
      (fun c hc he => hanl (he ▸ hc)) []
    rw [List.nil_append] at houter
    unfold Album.from_line
    rw [str_data_of_year ar ti yr hyne, houter]
    dsimp only
    rw [hastrip, htstrip]

/-- Witness for the amended C10: `"Artist - Some Album (2020)"`
round-trips. -/
theorem album_label_roundtrip_witness :
    Album.from_line (Album.str ⟨"Artist", "Some Album", "2020"⟩)
      = some ⟨"Artist", "Some Album", "2020"⟩ :=
  album_label_roundtrip ⟨"Artist", "Some Album", "2020"⟩ (by decide) (by decide)
    (by decide) (by decide) (by decide) (by decide) (by decide) (by decide)
    (Or.inr ⟨by decide, by decide⟩)
